import Mathlib

/-!
# Verification of `logster/parsers/JsonLogster.py`

A shallow embedding of the `JsonLogster` parser (Python 2): decoded JSON
values are modelled by the inductive `PyVal`, the parser instance by the
structure `JsonLogster`, Python dictionaries by association lists in
insertion order (`Dict`), and exceptions by `Except PyErr`.  The functions
`flatten_object`, `parse_line` and `get_state` are translated line by line
from the source; theorems below settle the specification claims against
them.
-/

namespace JsonLogsterModel

/-- Python exceptions that the embedded code can raise.
`valueError` is what `json.loads` raises on a malformed document in
Python 2; `attributeError` is raised by an attribute access such as
`key.replace` on an object without that attribute; `typeError` is raised
by `enumerate` on a non-iterable; `logsterParsingException` models the
`LogsterParsingException` class imported by the source (it carries a
message); `userError` stands for an arbitrary exception raised by a
user-supplied key filter override. -/
inductive PyErr where
  | valueError : PyErr
  | attributeError : PyErr
  | typeError : PyErr
  | logsterParsingException : String → PyErr
  | userError : String → PyErr
deriving DecidableEq, Repr

/-- Payload of a Python float leaf.  The program never computes with
floats — it only type-tags them and passes them through — so the payload
is an uninterpreted token (the decimal literal text). -/
structure PyFloat where
  lit : String
deriving DecidableEq, Repr

/-- A decoded Python value as produced by `json.loads` in Python 2:
JSON object keys are (unicode) strings; `int` covers both Python 2
`int` and `long` (arbitrary precision); `bool` is kept as a separate
constructor because the code tests `key is False` and
`isinstance(metric_value, bool)`. -/
inductive PyVal where
  | str : String → PyVal
  | int : Int → PyVal
  | float : PyFloat → PyVal
  | bool : Bool → PyVal
  | none : PyVal
  | list : List PyVal → PyVal
  | dict : List (String × PyVal) → PyVal

/-- A Python dictionary with string keys, modelled as an association
list in insertion order with unique keys maintained by `Dict.set`. -/
abbrev Dict := List (String × PyVal)

/-- `d[k] = v`: replace the binding in place if `k` is present
(keeping its position), else append the new binding. -/
def Dict.set : Dict → String → PyVal → Dict
  | [], k, v => [(k, v)]
  | (k1, v1) :: rest, k, v =>
    if k1 = k then (k1, v) :: rest else (k1, v1) :: Dict.set rest k v

/-- `d.update(m)`: set every binding of `m` into `d`, in order. -/
def Dict.update (d : Dict) (m : Dict) : Dict :=
  m.foldl (fun acc kv => Dict.set acc kv.1 kv.2) d

/-- `d.get(k)`: first (and, with unique keys, only) binding of `k`. -/
def Dict.lookup : Dict → String → Option PyVal
  | [], _ => Option.none
  | (k1, v1) :: rest, k => if k1 = k then some v1 else Dict.lookup rest k

/-- The keys of a dictionary, in order. -/
def Dict.keys (d : Dict) : List String := d.map Prod.fst

/-- `key is False`: identity comparison against the `False` singleton.
Only the boolean `False` itself satisfies it; falsy values such as `0`
or `""` do not. -/
def pyIsFalse : PyVal → Bool
  | .bool false => true
  | _ => false

/-- `hasattr(child, '__iter__')` in Python 2: dictionaries and lists
have `__iter__`; strings (str/unicode), numbers, booleans and `None`
do not. -/
def pyHasIter : PyVal → Bool
  | .list _ => true
  | .dict _ => true
  | _ => false

/-- `s.replace('/', sep)` for the one-character pattern `/`: every
occurrence of the character is substituted by `sep`. -/
def replaceSlash (s : String) (sep : String) : String :=
  String.join (s.data.map fun c => if c = '/' then sep else String.singleton c)

/-- `key.replace('/', sep)`: defined on strings, where it substitutes
every occurrence of `/`; any non-string receiver (an `int` array index,
a `bool`, ...) has no `replace` attribute and raises `AttributeError`. -/
def pyReplaceSlash (key : PyVal) (sep : String) : Except PyErr String :=
  match key with
  | .str s => .ok (replaceSlash s sep)
  | _ => .error .attributeError

/-- The apostrophe character, used by `repr` of strings. -/
def quoteCh : String := String.singleton (Char.ofNat 39)

mutual

/-- Python 2 `repr` of a decoded JSON value, used by `str()` on
containers.  String escaping and the unicode `u` prefix are not
modelled (no flattened leaf is ever a container, so `get_state` never
reaches this on real parser states). -/
def pyRepr : PyVal → String
  | .str s => quoteCh ++ s ++ quoteCh
  | .int n => toString n
  | .float f => f.lit
  | .bool b => if b then "True" else "False"
  | .none => "None"
  | .list xs => "[" ++ String.intercalate ", " (pyReprList xs) ++ "]"
  | .dict kvs => "\x7b" ++ String.intercalate ", " (pyReprPairs kvs) ++ "\x7d"

def pyReprList : List PyVal → List String
  | [] => []
  | v :: rest => pyRepr v :: pyReprList rest

def pyReprPairs : List (String × PyVal) → List String
  | [] => []
  | (k, v) :: rest =>
    (quoteCh ++ k ++ quoteCh ++ ": " ++ pyRepr v) :: pyReprPairs rest

end

/-- Python 2 `str()` of a decoded JSON value. -/
def pyStr : PyVal → String
  | .str s => s
  | .int n => toString n
  | .float f => f.lit
  | .bool b => if b then "True" else "False"
  | .none => "None"
  | .list xs => pyRepr (.list xs)
  | .dict kvs => pyRepr (.dict kvs)

/-- The state and configuration of a `JsonLogster` instance:
the accumulated `metrics` dictionary, the configured `key_separator`
(default `"."`, from `--key-separator`), and the `key_filter` method
(identity by default; subclasses may override it, and an override may
raise, hence the `Except`). -/
structure JsonLogster where
  metrics : Dict
  key_separator : String
  key_filter : PyVal → Except PyErr PyVal

/-- A freshly constructed `JsonLogster` with no options: empty metrics,
separator `"."`, and the default identity `key_filter` method. -/
def JsonLogster.mk0 : JsonLogster :=
  { metrics := [], key_separator := ".", key_filter := fun key => .ok key }

/-- A freshly constructed `JsonLogster` with `--key-separator sep`. -/
def JsonLogster.mkSep (sep : String) : JsonLogster :=
  { metrics := [], key_separator := sep, key_filter := fun key => .ok key }

/-- Apply the key filter callback as the source does: the filter is
called only when `callable(key_filter_callback)`, i.e. when a callback
was supplied. -/
def applyFilter (cb : Option (PyVal → Except PyErr PyVal)) (key : PyVal) :
    Except PyErr PyVal :=
  match cb with
  | some f => f key
  | Option.none => .ok key

/-- The loop body of `flatten_object` for a string child obtained by
`enumerate` over a (unicode) string node: the keys are the integer
character positions and every child is a one-character string, which in
Python 2 has no `__iter__`, so the recursive container branch of the
loop is unreachable here and only the leaf branch is translated. -/
def flattenChars (self : JsonLogster) (separator : String)
    (cb : Option (PyVal → Except PyErr PyVal)) (parent_keys : List String)
    (i : Nat) : List Char → Dict → Except PyErr Dict
  | [], flattened => .ok flattened
  | c :: rest, flattened =>
    match applyFilter cb (.int (Int.ofNat i)) with
    | .error e => .error e
    | .ok key =>
      if pyIsFalse key then
        flattenChars self separator cb parent_keys (i + 1) rest flattened
      else
        match pyReplaceSlash key self.key_separator with
        | .error e => .error e
        | .ok key2 =>
          flattenChars self separator cb parent_keys (i + 1) rest
            (Dict.set flattened (String.intercalate separator (parent_keys ++ [key2]))
              (.str (String.singleton c)))

mutual

/-- `JsonLogster.flatten_object(node, separator, key_filter_callback,
parent_keys)`, translated from the source: iterate the node
(`node.iteritems()` for a dict; on `AttributeError`, `enumerate(node)`,
which works for lists and strings and raises `TypeError` otherwise);
for each `(key, child)` apply the callback when callable, skip when the
result `is False`, substitute `/` by `self.key_separator` via
`key.replace` (an `AttributeError` when the key is not a string), then
recurse into children that have `__iter__` and merge, or record a leaf
under the joined key. -/
def flatten_object (self : JsonLogster) (node : PyVal) (separator : String)
    (key_filter_callback : Option (PyVal → Except PyErr PyVal))
    (parent_keys : List String) : Except PyErr Dict :=
  match node with
  | .dict kvs => flattenPairs self separator key_filter_callback parent_keys kvs []
  | .list xs => flattenElems self separator key_filter_callback parent_keys 0 xs []
  | .str s => flattenChars self separator key_filter_callback parent_keys 0 s.data []
  | _ => .error .typeError
  termination_by structural node

/-- The `for key, child in iterator` loop of `flatten_object` when the
node is a dictionary: the keys are the entry keys (strings). -/
def flattenPairs (self : JsonLogster) (separator : String)
    (cb : Option (PyVal → Except PyErr PyVal)) (parent_keys : List String) :
    List (String × PyVal) → Dict → Except PyErr Dict
  | [], flattened => .ok flattened
  | (rawKey, child) :: rest, flattened =>
    match applyFilter cb (.str rawKey) with
    | .error e => .error e
    | .ok key =>
      if pyIsFalse key then flattenPairs self separator cb parent_keys rest flattened
      else
        match pyReplaceSlash key self.key_separator with
        | .error e => .error e
        | .ok key2 =>
          if pyHasIter child then
            match flatten_object self child separator cb (parent_keys ++ [key2]) with
            | .error e => .error e
            | .ok sub =>
              flattenPairs self separator cb parent_keys rest (Dict.update flattened sub)
          else
            flattenPairs self separator cb parent_keys rest
              (Dict.set flattened (String.intercalate separator (parent_keys ++ [key2])) child)
  termination_by structural l _acc => l

/-- The `for key, child in iterator` loop of `flatten_object` when the
node is a list: `enumerate` supplies integer indices as keys. -/
def flattenElems (self : JsonLogster) (separator : String)
    (cb : Option (PyVal → Except PyErr PyVal)) (parent_keys : List String)
    (i : Nat) : List PyVal → Dict → Except PyErr Dict
  | [], flattened => .ok flattened
  | child :: rest, flattened =>
    match applyFilter cb (.int (Int.ofNat i)) with
    | .error e => .error e
    | .ok key =>
      if pyIsFalse key then flattenElems self separator cb parent_keys (i + 1) rest flattened
      else
        match pyReplaceSlash key self.key_separator with
        | .error e => .error e
        | .ok key2 =>
          if pyHasIter child then
            match flatten_object self child separator cb (parent_keys ++ [key2]) with
            | .error e => .error e
            | .ok sub =>
              flattenElems self separator cb parent_keys (i + 1) rest (Dict.update flattened sub)
          else
            flattenElems self separator cb parent_keys (i + 1) rest
              (Dict.set flattened (String.intercalate separator (parent_keys ++ [key2])) child)
  termination_by structural l _acc => l

end

/-- One raw input line, carried together with its decode outcome.
Modelled from the spec: Python's `json.loads`, the JSON decoder used by
`parse_line`, is standard-library code not in this repository; a line
is represented by its text together with the decoded document
(`Option.none` when the text is not valid JSON). -/
structure Line where
  text : String
  decoded : Option PyVal

/-- Modelled from the spec: `json.loads(line)` returns the decoded
document, and raises a `ValueError` (which in Python 2 does not carry
the line text) when the line is not valid JSON. -/
def json_loads (line : Line) : Except PyErr PyVal :=
  match line.decoded with
  | Option.none => .error .valueError
  | some v => .ok v

/-- `JsonLogster.parse_line(line)`, translated from the source:
`json.loads(line)` (its result bound to an unused local, and evaluated
a second time inside the `update` call), then
`self.metrics.update(self.flatten_object(json.loads(line),
self.key_separator, self.key_filter))`.  An exception anywhere leaves
`self` unchanged, because `self.metrics` is only mutated by the final
`update`; the second component reports the escaped exception, if any. -/
def parse_line (self : JsonLogster) (line : Line) : JsonLogster × Option PyErr :=
  match json_loads line with
  | .error e => (self, some e)
  | .ok _json_data =>
    match json_loads line with
    | .error e => (self, some e)
    | .ok doc =>
      match flatten_object self doc self.key_separator (some self.key_filter) [] with
      | .error e => (self, some e)
      | .ok flat =>
        ({ self with metrics := Dict.update self.metrics flat }, Option.none)

/-- A metric record as handed to `MetricObject(metric_name,
metric_value, type=metric_type)`. -/
structure MetricObject where
  name : String
  value : PyVal
  type : String

/-- `JsonLogster.get_state(duration)`, translated from the source: one
`MetricObject` per accumulated `(metric_name, metric_value)` pair;
floats are tagged `'float'`; `int`/`long` values (booleans included,
coerced to their integer value) are tagged `'int32'`; everything else
is tagged `'string'` and passed through `str()`.  The `duration`
argument is stored on the instance and not used by the computation. -/
def get_state (self : JsonLogster) (duration : Int) : List MetricObject :=
  self.metrics.map fun kv =>
    match kv.2 with
    | .float f => { name := kv.1, value := .float f, type := "float" }
    | .bool b => { name := kv.1, value := .int (if b then 1 else 0), type := "int32" }
    | .int n => { name := kv.1, value := .int n, type := "int32" }
    | v => { name := kv.1, value := .str (pyStr v), type := "string" }

/-- A key filter override (the spec's SKIP example) that returns
`False` for the key `"secret"` and every other key unchanged. -/
def secretFilter : PyVal → Except PyErr PyVal
  | .str "secret" => .ok (.bool false)
  | key => .ok key

/-- A key filter override that returns the integer `0` (a falsy value
that is not the `False` singleton) for every key. -/
def zeroFilter : PyVal → Except PyErr PyVal :=
  fun _ => .ok (.int 0)

/-- A key filter override that raises on every key. -/
def raisingFilter : PyVal → Except PyErr PyVal :=
  fun _ => .error (.userError "filter blew up")

/-- A key filter override that returns the empty string (a falsy value
that is not the `False` singleton) for every key. -/
def blankFilter : PyVal → Except PyErr PyVal :=
  fun _ => .ok (.str "")

/-- A key filter override that returns `False` for every key. -/
def allFalseFilter : PyVal → Except PyErr PyVal :=
  fun _ => .ok (.bool false)

/-! ## Dictionary lemmas -/

theorem Dict.lookup_set_self (d : Dict) (k : String) (v : PyVal) :
    Dict.lookup (Dict.set d k v) k = some v := by
  induction d with
  | nil => simp [Dict.set, Dict.lookup]
  | cons kv rest ih =>
    obtain ⟨k1, v1⟩ := kv
    by_cases h : k1 = k
    · subst h; simp [Dict.set, Dict.lookup]
    · simp [Dict.set, Dict.lookup, h, ih]

theorem Dict.lookup_set_ne (d : Dict) {k1 k : String} (v : PyVal) (hne : k1 ≠ k) :
    Dict.lookup (Dict.set d k1 v) k = Dict.lookup d k := by
  induction d with
  | nil => simp [Dict.set, Dict.lookup, hne]
  | cons kv rest ih =>
    obtain ⟨k2, v2⟩ := kv
    by_cases h : k2 = k1
    · subst h
      simp [Dict.set, Dict.lookup, hne]
    · by_cases h2 : k2 = k
      · subst h2
        simp [Dict.set, Dict.lookup, h]
      · simp [Dict.set, Dict.lookup, h, h2, ih]

theorem Dict.set_set_same (d : Dict) (k : String) (v w : PyVal) :
    Dict.set (Dict.set d k v) k w = Dict.set d k w := by
  induction d with
  | nil => simp [Dict.set]
  | cons kv rest ih =>
    obtain ⟨k1, v1⟩ := kv
    by_cases h : k1 = k
    · simp [Dict.set, h]
    · simp [Dict.set, h, ih]

theorem Dict.mem_keys_of_lookup_isSome (d : Dict) {k : String}
    (h : (Dict.lookup d k).isSome) : k ∈ Dict.keys d := by
  induction d with
  | nil => simp [Dict.lookup] at h
  | cons kv rest ih =>
    obtain ⟨k1, v1⟩ := kv
    by_cases hk : k1 = k
    · simp [Dict.keys, hk]
    · simp only [Dict.lookup, hk, if_false] at h
      simp [Dict.keys]
      right
      simpa [Dict.keys] using ih h

/-- Two in-place writes to distinct keys commute, provided the first
key is already present (so that neither order appends it afresh). -/
theorem Dict.set_comm_of_mem (d : Dict) {k1 k2 : String} (v1 v2 : PyVal)
    (hne : k1 ≠ k2) (h1 : k1 ∈ Dict.keys d) :
    Dict.set (Dict.set d k1 v1) k2 v2 = Dict.set (Dict.set d k2 v2) k1 v1 := by
  induction d with
  | nil => simp [Dict.keys] at h1
  | cons kv rest ih =>
    obtain ⟨k3, v3⟩ := kv
    by_cases h3 : k3 = k1
    · subst h3
      have h4 : k3 ≠ k2 := hne
      simp [Dict.set, h4]
    · have hmem : k1 ∈ Dict.keys rest := by
        simp only [Dict.keys, List.map_cons, List.mem_cons] at h1
        rcases h1 with h | h
        · exact absurd h.symm h3
        · exact h
      by_cases h4 : k3 = k2
      · subst h4
        simp [Dict.set, h3]
      · simp [Dict.set, h3, h4, ih hmem]

theorem Dict.set_eq_self_of_lookup (d : Dict) {k : String} {v : PyVal}
    (h : Dict.lookup d k = some v) : Dict.set d k v = d := by
  induction d with
  | nil => simp [Dict.lookup] at h
  | cons kv rest ih =>
    obtain ⟨k1, v1⟩ := kv
    by_cases hk : k1 = k
    · subst hk
      simp [Dict.lookup] at h
      simp [Dict.set, h]
    · simp [Dict.lookup, hk] at h
      simp [Dict.set, hk, ih h]

@[simp] theorem Dict.update_nil (d : Dict) : Dict.update d [] = d := rfl

theorem Dict.update_cons (d : Dict) (k : String) (v : PyVal) (m : Dict) :
    Dict.update d ((k, v) :: m) = Dict.update (Dict.set d k v) m := rfl

theorem Dict.lookup_update_of_lookup_none (m : Dict) {k : String} (d : Dict)
    (h : Dict.lookup m k = Option.none) :
    Dict.lookup (Dict.update d m) k = Dict.lookup d k := by
  induction m generalizing d with
  | nil => rfl
  | cons kv rest ih =>
    obtain ⟨k1, v1⟩ := kv
    by_cases hk : k1 = k
    · simp [Dict.lookup, hk] at h
    · simp only [Dict.lookup, hk, if_false] at h
      rw [Dict.update_cons, ih _ h, Dict.lookup_set_ne _ _ hk]

theorem Dict.isSome_lookup_set (d : Dict) {k : String} (k1 : String) (v : PyVal)
    (h : (Dict.lookup d k).isSome) : (Dict.lookup (Dict.set d k1 v) k).isSome := by
  by_cases hk : k1 = k
  · subst hk; rw [Dict.lookup_set_self]; rfl
  · rwa [Dict.lookup_set_ne _ _ hk]

theorem Dict.isSome_lookup_update (m : Dict) {k : String} (d : Dict)
    (h : (Dict.lookup d k).isSome) : (Dict.lookup (Dict.update d m) k).isSome := by
  induction m generalizing d with
  | nil => exact h
  | cons kv rest ih =>
    rw [show Dict.update d (kv :: rest) = Dict.update (Dict.set d kv.1 kv.2) rest from rfl]
    exact ih _ (Dict.isSome_lookup_set _ _ _ h)

theorem Dict.update_set_cancel (m : Dict) {k : String} (d : Dict) (v : PyVal)
    (hd : (Dict.lookup d k).isSome) (hm : k ∈ Dict.keys m) :
    Dict.update (Dict.set d k v) m = Dict.update d m := by
  induction m generalizing d v with
  | nil => simp [Dict.keys] at hm
  | cons kv rest ih =>
    obtain ⟨k1, v1⟩ := kv
    by_cases hk : k1 = k
    · subst hk
      rw [Dict.update_cons, Dict.set_set_same, Dict.update_cons]
    · have hm2 : k ∈ Dict.keys rest := by
        simp only [Dict.keys, List.map_cons, List.mem_cons] at hm
        rcases hm with h | h
        · exact absurd h.symm hk
        · exact h
      rw [Dict.update_cons,
        Dict.set_comm_of_mem _ _ _ (Ne.symm hk) (Dict.mem_keys_of_lookup_isSome _ hd)]
      rw [ih _ _ (Dict.isSome_lookup_set _ _ _ hd) hm2, Dict.update_cons]

theorem Dict.lookup_eq_none_of_not_mem (m : Dict) {k : String} (h : k ∉ Dict.keys m) :
    Dict.lookup m k = Option.none := by
  induction m with
  | nil => rfl
  | cons kv rest ih =>
    obtain ⟨k1, v1⟩ := kv
    simp only [Dict.keys, List.map_cons, List.mem_cons, not_or] at h
    have h1 : k1 ≠ k := fun he => h.1 he.symm
    simp only [Dict.lookup, h1, if_false]
    exact ih h.2

theorem Dict.lookup_update_of_mem_nodup (m : Dict) {k : String} {v : PyVal} (d : Dict)
    (hnd : (Dict.keys m).Nodup) (h : Dict.lookup m k = some v) :
    Dict.lookup (Dict.update d m) k = some v := by
  induction m generalizing d with
  | nil => simp [Dict.lookup] at h
  | cons kv rest ih =>
    obtain ⟨k1, v1⟩ := kv
    simp only [Dict.keys, List.map_cons, List.nodup_cons] at hnd
    by_cases hk : k1 = k
    · subst hk
      simp only [Dict.lookup, if_pos rfl] at h
      obtain rfl : v1 = v := by injection h
      have hrest : Dict.lookup rest k1 = Option.none :=
        Dict.lookup_eq_none_of_not_mem rest hnd.1
      rw [Dict.update_cons, Dict.lookup_update_of_lookup_none _ _ hrest,
        Dict.lookup_set_self]
    · simp only [Dict.lookup, hk, if_false] at h
      rw [Dict.update_cons]
      exact ih _ hnd.2 h

theorem Dict.update_update_self (m : Dict) (st : Dict) :
    Dict.update (Dict.update st m) m = Dict.update st m := by
  induction m generalizing st with
  | nil => rfl
  | cons kv rest ih =>
    obtain ⟨k, v⟩ := kv
    rw [Dict.update_cons, Dict.update_cons]
    by_cases hk : k ∈ Dict.keys rest
    · have hsome : (Dict.lookup (Dict.update (Dict.set st k v) rest) k).isSome := by
        apply Dict.isSome_lookup_update
        rw [Dict.lookup_set_self]
        rfl
      rw [Dict.update_set_cancel _ _ _ hsome hk, ih]
    · have hlook : Dict.lookup (Dict.update (Dict.set st k v) rest) k = some v := by
        rw [Dict.lookup_update_of_lookup_none _ _ (Dict.lookup_eq_none_of_not_mem rest hk),
          Dict.lookup_set_self]
      rw [Dict.set_eq_self_of_lookup _ hlook, ih]

/-! ## Flattening lemmas -/

/-- Processing a common prefix of entries preserves any equivalence of
the remaining entry lists (for every intermediate accumulator). -/
theorem flattenPairs_append_congr (self : JsonLogster) (sep : String)
    (cb : Option (PyVal → Except PyErr PyVal)) (parents : List String)
    (pre : List (String × PyVal)) {rest1 rest2 : List (String × PyVal)}
    (h : ∀ acc, flattenPairs self sep cb parents rest1 acc
      = flattenPairs self sep cb parents rest2 acc) :
    ∀ acc, flattenPairs self sep cb parents (pre ++ rest1) acc
      = flattenPairs self sep cb parents (pre ++ rest2) acc := by
  induction pre with
  | nil => exact h
  | cons kv pre ih =>
    intro acc
    obtain ⟨k1, c1⟩ := kv
    simp only [List.cons_append]
    cases hf : applyFilter cb (.str k1) with
    | error e => simp only [flattenPairs, hf]
    | ok key =>
      by_cases hfalse : pyIsFalse key
      · simp only [flattenPairs, hf, hfalse, if_true]
        exact ih acc
      · simp only [flattenPairs, hf, hfalse, if_false, Bool.false_eq_true]
        cases hr : pyReplaceSlash key self.key_separator with
        | error e => simp only [hr]
        | ok key2 =>
          simp only [hr]
          by_cases hc : pyHasIter c1
          · simp only [hc, if_true]
            cases hsub : flatten_object self c1 sep cb (parents ++ [key2]) with
            | error e => simp only []
            | ok sub => exact ih _
          · simp only [hc, if_false, Bool.false_eq_true]
            exact ih _

/-- With a filter that returns `False` on every key, every entry of a
dictionary node is skipped. -/
theorem flattenPairs_all_false (self : JsonLogster) (sep : String)
    (f : PyVal → Except PyErr PyVal) (parents : List String)
    (hf : ∀ key, f key = .ok (.bool false)) :
    ∀ (l : List (String × PyVal)) (acc : Dict),
      flattenPairs self sep (some f) parents l acc = .ok acc := by
  intro l
  induction l with
  | nil => intro acc; rfl
  | cons kv rest ih =>
    intro acc
    obtain ⟨k1, c1⟩ := kv
    simp only [flattenPairs, applyFilter, hf (.str k1), pyIsFalse, if_true]
    exact ih acc

/-- With a filter that returns `False` on every key, every element of a
list node is skipped. -/
theorem flattenElems_all_false (self : JsonLogster) (sep : String)
    (f : PyVal → Except PyErr PyVal) (parents : List String)
    (hf : ∀ key, f key = .ok (.bool false)) :
    ∀ (i : Nat) (l : List PyVal) (acc : Dict),
      flattenElems self sep (some f) parents i l acc = .ok acc := by
  intro i l
  induction l generalizing i with
  | nil => intro acc; rfl
  | cons c rest ih =>
    intro acc
    simp only [flattenElems, applyFilter, hf (.int (Int.ofNat i)), pyIsFalse, if_true]
    exact ih _ acc

/-- Evaluating `replaceSlash` on the empty string. -/
theorem replaceSlash_empty (sep : String) : replaceSlash "" sep = "" := rfl

/-! ## Claims -/

/-- C1: the claim says that flattening `a: b: 1, c: [2, 3]` with
separator `.` yields the three leaves `a.b`, `a.c.0`, `a.c.1`.  The
code instead raises `AttributeError` on any array: `enumerate` supplies
integer keys, and `key.replace('/', self.key_separator)` is called on
the raw key before the `str(key)` coercion, so an `int` key has no
`replace` attribute.  This theorem evaluates `parse_line` at the
claim's own example input and shows the exception escaping with the
state unchanged. -/
theorem claim_C1_array_flatten_raises :
    parse_line JsonLogster.mk0
      ⟨"\x7b\x22a\x22: \x7b\x22b\x22: 1, \x22c\x22: [2, 3]\x7d\x7d",
        some (.dict [("a", .dict [("b", .int 1), ("c", .list [.int 2, .int 3])])])⟩
      = (JsonLogster.mk0, some PyErr.attributeError) := rfl

/-- C2 (amended): `get_state` emits exactly one record per accumulated
pair, with type tags drawn from "float", "int32", "string" — the
integer tag is the literal `'int32'`, not `'integer'` as the claim
states: floats pass through under "float"; booleans are coerced to 0/1
under "int32"; integers of arbitrary magnitude pass through under
"int32"; strings and null are rendered by `str()` under "string". -/
theorem claim_C2_type_classification :
    (∀ (self : JsonLogster) (dur : Int),
      (get_state self dur).length = self.metrics.length)
    ∧ (∀ (n : String) (sep : String) (f : PyVal → Except PyErr PyVal) (dur : Int)
        (fl : PyFloat),
      get_state ⟨[(n, .float fl)], sep, f⟩ dur = [⟨n, .float fl, "float"⟩])
    ∧ (∀ (n sep : String) (f : PyVal → Except PyErr PyVal) (dur : Int) (b : Bool),
      get_state ⟨[(n, .bool b)], sep, f⟩ dur
        = [⟨n, .int (if b then 1 else 0), "int32"⟩])
    ∧ (∀ (n sep : String) (f : PyVal → Except PyErr PyVal) (dur : Int) (i : Int),
      get_state ⟨[(n, .int i)], sep, f⟩ dur = [⟨n, .int i, "int32"⟩])
    ∧ (∀ (n sep : String) (f : PyVal → Except PyErr PyVal) (dur : Int) (s : String),
      get_state ⟨[(n, .str s)], sep, f⟩ dur = [⟨n, .str s, "string"⟩])
    ∧ (∀ (n sep : String) (f : PyVal → Except PyErr PyVal) (dur : Int),
      get_state ⟨[(n, .none)], sep, f⟩ dur = [⟨n, .str "None", "string"⟩]) := by
  refine ⟨fun self dur => ?_, fun n sep f dur fl => rfl, fun n sep f dur b => rfl,
    fun n sep f dur i => rfl, fun n sep f dur s => rfl, fun n sep f dur => rfl⟩
  simp [get_state]

/-- C2 (counterexample): the claim states the type tag is drawn from
"integer", "float", "string"; the code tags the large-integer example
with the literal `'int32'`, which is not in that set. -/
theorem claim_C2_counterexample :
    get_state ⟨[("a", .int 123456789012345)], ".", fun key => .ok key⟩ 0
      = [⟨"a", .int 123456789012345, "int32"⟩]
    ∧ ("int32" : String) ∉ (["integer", "float", "string"] : List String) :=
  ⟨rfl, by decide⟩

/-- C3 (amended): on a line that is not valid JSON, `parse_line`
propagates the decoder's own `ValueError` to the caller unchanged (the
state is untouched); it does not wrap it in the imported
`LogsterParsingException`, and the error does not carry the raw line
text. -/
theorem claim_C3_decode_error (self : JsonLogster) (line : Line)
    (h : line.decoded = Option.none) :
    parse_line self line = (self, some PyErr.valueError) := by
  simp [parse_line, json_loads, h]

/-- C3 (witness): the amended claim applied to a concrete malformed
line. -/
theorem claim_C3_decode_error_witness :
    parse_line JsonLogster.mk0 ⟨"not json", Option.none⟩
      = (JsonLogster.mk0, some PyErr.valueError) :=
  claim_C3_decode_error JsonLogster.mk0 ⟨"not json", Option.none⟩ rfl

/-- C3 (counterexample): at a concrete malformed line, the escaping
exception is the decoder's `ValueError`, which is not a
`LogsterParsingException` carrying the offending line text as the
claim states. -/
theorem claim_C3_counterexample :
    (parse_line JsonLogster.mk0 ⟨"oops not json", Option.none⟩).2
      = some PyErr.valueError
    ∧ PyErr.valueError ≠ PyErr.logsterParsingException "oops not json" :=
  ⟨rfl, by decide⟩

/-- C4: `parse_line` is atomic: whenever it fails — decode failure or a
key filter raising during flattening — the accumulated metrics mapping
is exactly what it was before the call (the source mutates
`self.metrics` only by the final `update`, after flattening has fully
succeeded). -/
theorem claim_C4_parse_line_atomic (self : JsonLogster) (line : Line)
    (h : (parse_line self line).2.isSome) :
    (parse_line self line).1.metrics = self.metrics := by
  cases hj : json_loads line with
  | error e => simp [parse_line, hj]
  | ok doc =>
    cases hf : flatten_object self doc self.key_separator (some self.key_filter) [] with
    | error e => simp [parse_line, hj, hf]
    | ok flat =>
      exfalso
      simp [parse_line, hj, hf] at h

/-- C4 (witness): atomicity applied to a concrete decode failure and to
a concrete line whose key filter raises, both on a nonempty prior
state. -/
theorem claim_C4_parse_line_atomic_witness :
    (parse_line ⟨[("old", PyVal.int 7)], ".", raisingFilter⟩
      ⟨"bad", Option.none⟩).1.metrics = [("old", PyVal.int 7)]
    ∧ (parse_line ⟨[("old", PyVal.int 7)], ".", raisingFilter⟩
      ⟨"\x7b\x22a\x22: 1\x7d", some (.dict [("a", .int 1)])⟩).1.metrics
        = [("old", PyVal.int 7)] :=
  ⟨claim_C4_parse_line_atomic _ _ (by decide),
    claim_C4_parse_line_atomic _ _ (by decide)⟩

/-- C5: accumulator update is last-value-wins and sticky: after
`update`, every key of the (duplicate-free) flattened mapping holds its
new value, every key absent from the mapping keeps its prior value, and
the claim's two concrete line sequences end with `a = 3, b = 2` and
`a = 2` respectively. -/
theorem claim_C5_last_value_wins_sticky :
    (∀ (st m : Dict), (Dict.keys m).Nodup →
      ∀ (k : String) (v : PyVal), Dict.lookup m k = some v →
        Dict.lookup (Dict.update st m) k = some v)
    ∧ (∀ (st m : Dict) (k : String), Dict.lookup m k = Option.none →
        Dict.lookup (Dict.update st m) k = Dict.lookup st k)
    ∧ Dict.lookup (parse_line (parse_line JsonLogster.mk0
        ⟨"\x7b\x22a\x22: 1, \x22b\x22: 2\x7d",
          some (.dict [("a", .int 1), ("b", .int 2)])⟩).1
        ⟨"\x7b\x22a\x22: 3\x7d", some (.dict [("a", .int 3)])⟩).1.metrics "a"
        = some (.int 3)
    ∧ Dict.lookup (parse_line (parse_line JsonLogster.mk0
        ⟨"\x7b\x22a\x22: 1, \x22b\x22: 2\x7d",
          some (.dict [("a", .int 1), ("b", .int 2)])⟩).1
        ⟨"\x7b\x22a\x22: 3\x7d", some (.dict [("a", .int 3)])⟩).1.metrics "b"
        = some (.int 2)
    ∧ Dict.lookup (parse_line (parse_line JsonLogster.mk0
        ⟨"\x7b\x22a\x22: 1\x7d", some (.dict [("a", .int 1)])⟩).1
        ⟨"\x7b\x22a\x22: 2\x7d", some (.dict [("a", .int 2)])⟩).1.metrics "a"
        = some (.int 2) :=
  ⟨fun st m hnd _k _v h => Dict.lookup_update_of_mem_nodup m st hnd h,
    fun st m _k h => Dict.lookup_update_of_lookup_none m st h,
    rfl, rfl, rfl⟩

/-- C5 (witness): the two universally quantified parts applied to a
concrete prior state and mapping. -/
theorem claim_C5_witness :
    Dict.lookup (Dict.update [("x", PyVal.int 0)] [("a", PyVal.int 1)]) "a"
      = some (PyVal.int 1)
    ∧ Dict.lookup (Dict.update [("x", PyVal.int 0)] [("a", PyVal.int 1)]) "x"
      = some (PyVal.int 0) :=
  ⟨claim_C5_last_value_wins_sticky.1 [("x", PyVal.int 0)] [("a", PyVal.int 1)]
      (by decide) "a" (PyVal.int 1) rfl,
    (claim_C5_last_value_wins_sticky.2.1 [("x", PyVal.int 0)] [("a", PyVal.int 1)]
      "x" rfl).trans rfl⟩

/-- C6: when the key filter returns `False` (SKIP) for a key, that key
and its entire subtree are omitted: the flattened result of a
dictionary with such an entry equals the result without the entry — for
an arbitrary subtree value, so nothing under the skipped key is
recursed into; with a filter that skips every key, any container
flattens to the empty mapping; and the claim's concrete example yields
only `ok = 2`. -/
theorem claim_C6_key_filter_skip :
    (∀ (self : JsonLogster) (sep : String) (f : PyVal → Except PyErr PyVal)
      (parents : List String) (pre post : List (String × PyVal)) (k : String)
      (v : PyVal), f (.str k) = .ok (.bool false) →
      flatten_object self (.dict (pre ++ (k, v) :: post)) sep (some f) parents
        = flatten_object self (.dict (pre ++ post)) sep (some f) parents)
    ∧ (∀ (self : JsonLogster) (sep : String) (f : PyVal → Except PyErr PyVal)
      (parents : List String) (node : PyVal),
      (∀ key, f key = .ok (.bool false)) → pyHasIter node = true →
      flatten_object self node sep (some f) parents = .ok [])
    ∧ flatten_object JsonLogster.mk0
        (.dict [("secret", .dict [("a", .int 1)]), ("ok", .int 2)]) "."
        (some secretFilter) [] = .ok [("ok", .int 2)] := by
  refine ⟨?_, ?_, rfl⟩
  · intro self sep f parents pre post k v hf
    simp only [flatten_object]
    exact flattenPairs_append_congr self sep (some f) parents pre
      (fun acc => by simp [flattenPairs, applyFilter, hf, pyIsFalse]) []
  · intro self sep f parents node hall hiter
    cases node with
    | str s => simp [pyHasIter] at hiter
    | int n => simp [pyHasIter] at hiter
    | float f2 => simp [pyHasIter] at hiter
    | bool b => simp [pyHasIter] at hiter
    | none => simp [pyHasIter] at hiter
    | list xs =>
      simp only [flatten_object]
      exact flattenElems_all_false self sep f parents hall 0 xs []
    | dict kvs =>
      simp only [flatten_object]
      exact flattenPairs_all_false self sep f parents hall kvs []

/-- C6 (witness): both quantified parts applied to concrete inputs: the
`secret` entry is dropped wholesale, and an everything-skipping filter
flattens a list container to the empty mapping. -/
theorem claim_C6_key_filter_skip_witness :
    flatten_object JsonLogster.mk0
      (.dict ([] ++ ("secret", .dict [("a", .int 1)]) :: [("ok", .int 2)])) "."
      (some secretFilter) []
    = flatten_object JsonLogster.mk0 (.dict ([] ++ [("ok", .int 2)])) "."
      (some secretFilter) []
    ∧ flatten_object JsonLogster.mk0 (.list [.int 1, .int 2]) "."
      (some allFalseFilter) [] = .ok [] :=
  ⟨claim_C6_key_filter_skip.1 JsonLogster.mk0 "." secretFilter [] []
      [("ok", .int 2)] "secret" (.dict [("a", .int 1)]) rfl,
    claim_C6_key_filter_skip.2.1 JsonLogster.mk0 "." allFalseFilter []
      (.list [.int 1, .int 2]) (fun _key => rfl) rfl⟩

/-- C7 (counterexample): the claim says `/` in a key is replaced with
the `separator` argument of `flatten_object`; the code replaces it with
the instance field `self.key_separator` instead.  On an instance whose
`key_separator` is the default `.`, flattening the claim's example with
separator argument `_` yields the key `x.y`, not `x_y`. -/
theorem claim_C7_counterexample :
    flatten_object JsonLogster.mk0 (.dict [("x/y", .int 5)]) "_" Option.none []
      = .ok [("x.y", .int 5)]
    ∧ ("x.y" : String) ≠ "x_y" :=
  ⟨rfl, by decide⟩

/-- C7 (amended): each `/` in a key is replaced with the instance's
configured `key_separator` field (which coincides with the separator
argument on the `parse_line` path, where both are `self.key_separator`):
a one-leaf dictionary flattens to the slash-substituted key joined with
the separator argument, and on an instance configured with
`--key-separator _` the claim's example line does yield `x_y = 5`. -/
theorem claim_C7_slash_substitution :
    (∀ (self : JsonLogster) (sep : String) (parents : List String) (k : String)
      (v : Int),
      flatten_object self (.dict [(k, .int v)]) sep Option.none parents
        = .ok [(String.intercalate sep
            (parents ++ [replaceSlash k self.key_separator]), .int v)])
    ∧ (parse_line (JsonLogster.mkSep "_")
        ⟨"\x7b\x22x/y\x22: 5\x7d", some (.dict [("x/y", .int 5)])⟩).1.metrics
      = [("x_y", .int 5)] := by
  refine ⟨?_, rfl⟩
  intro self sep parents k v
  simp [flatten_object, flattenPairs, applyFilter, pyIsFalse, pyReplaceSlash,
    pyHasIter, Dict.set]

/-- C8: a key whose child is an empty container (empty object or empty
array) contributes no leaf entry: whenever the key filter maps the key
to a string (in particular the identity default), the flattened result
equals that of the dictionary without the entry, and the claim's
example flattens to the empty mapping. -/
theorem claim_C8_empty_container_no_leaves :
    (∀ (self : JsonLogster) (sep : String)
      (cb : Option (PyVal → Except PyErr PyVal)) (parents : List String)
      (pre post : List (String × PyVal)) (k k2 : String) (child : PyVal),
      applyFilter cb (.str k) = .ok (.str k2) →
      (child = .dict [] ∨ child = .list []) →
      flatten_object self (.dict (pre ++ (k, child) :: post)) sep cb parents
        = flatten_object self (.dict (pre ++ post)) sep cb parents)
    ∧ flatten_object JsonLogster.mk0 (.dict [("a", .dict [])]) "."
        (some JsonLogster.mk0.key_filter) [] = .ok [] := by
  refine ⟨?_, rfl⟩
  intro self sep cb parents pre post k k2 child hf hchild
  simp only [flatten_object]
  refine flattenPairs_append_congr self sep cb parents pre (fun acc => ?_) []
  rcases hchild with h | h <;> subst h <;>
    simp [flattenPairs, flattenElems, flatten_object, hf, pyIsFalse, pyReplaceSlash,
      pyHasIter]

/-- C8 (witness): the quantified part applied to the claim's example:
the `a` entry with an empty-object child is dropped, leaving the
flattening of the empty dictionary. -/
theorem claim_C8_empty_container_no_leaves_witness :
    flatten_object JsonLogster.mk0 (.dict ([] ++ ("a", .dict []) :: [])) "."
      (some JsonLogster.mk0.key_filter) []
    = flatten_object JsonLogster.mk0 (.dict ([] ++ [])) "."
      (some JsonLogster.mk0.key_filter) [] :=
  claim_C8_empty_container_no_leaves.1 JsonLogster.mk0 "."
    (some JsonLogster.mk0.key_filter) [] [] [] "a" "a" (.dict []) rfl (Or.inl rfl)

/-- C9: accumulator update is idempotent: applying `update` twice with
the same flattened mapping yields the same accumulated state as
applying it once. -/
theorem claim_C9_update_idempotent (st m : Dict) :
    Dict.update (Dict.update st m) m = Dict.update st m :=
  Dict.update_update_self m st

/-- C10 (counterexample): the claim says a filter returning the falsy
integer `0` does not skip the key and the key and its subtree are still
processed; in the code the key is indeed not skipped, but processing it
then raises `AttributeError` at `key.replace` (an `int` has no
`replace`), so the line's flattening fails and no entry at all is
produced. -/
theorem claim_C10_counterexample :
    flatten_object JsonLogster.mk0 (.dict [("k", .int 1)]) "."
      (some zeroFilter) [] = .error .attributeError := rfl

/-- C10 (amended): a key is skipped iff the filter's return value is
exactly the boolean `False`: a filter returning `False` drops the entry;
a filter returning the empty string does not skip — the entry is
produced under the empty key segment; a filter returning the integer
`0` does not skip either, but the flattening then fails with
`AttributeError` at the slash-substitution step, since only strings
have `replace`; and with no callable filter, no key is skipped and the
entry is produced under the (slash-substituted) original key. -/
theorem claim_C10_skip_iff_identical_false :
    (∀ (self : JsonLogster) (sep : String) (f : PyVal → Except PyErr PyVal)
      (parents : List String) (k : String) (v : PyVal),
      f (.str k) = .ok (.bool false) →
      flatten_object self (.dict [(k, v)]) sep (some f) parents = .ok [])
    ∧ (∀ (self : JsonLogster) (sep : String) (f : PyVal → Except PyErr PyVal)
      (parents : List String) (k : String) (n : Int),
      f (.str k) = .ok (.str "") →
      flatten_object self (.dict [(k, .int n)]) sep (some f) parents
        = .ok [(String.intercalate sep (parents ++ [""]), .int n)])
    ∧ (∀ (self : JsonLogster) (sep : String) (f : PyVal → Except PyErr PyVal)
      (parents : List String) (k : String) (v : PyVal),
      f (.str k) = .ok (.int 0) →
      flatten_object self (.dict [(k, v)]) sep (some f) parents
        = .error .attributeError)
    ∧ (∀ (self : JsonLogster) (sep : String) (parents : List String) (k : String)
      (n : Int),
      flatten_object self (.dict [(k, .int n)]) sep Option.none parents
        = .ok [(String.intercalate sep
            (parents ++ [replaceSlash k self.key_separator]), .int n)]) := by
  refine ⟨?_, ?_, ?_, ?_⟩
  · intro self sep f parents k v hf
    simp [flatten_object, flattenPairs, applyFilter, hf, pyIsFalse]
  · intro self sep f parents k n hf
    simp [flatten_object, flattenPairs, applyFilter, hf, pyIsFalse, pyReplaceSlash,
      pyHasIter, replaceSlash_empty, Dict.set]
  · intro self sep f parents k v hf
    simp [flatten_object, flattenPairs, applyFilter, hf, pyIsFalse, pyReplaceSlash]
  · intro self sep parents k n
    simp [flatten_object, flattenPairs, applyFilter, pyIsFalse, pyReplaceSlash,
      pyHasIter, Dict.set]

/-- C10 (witness): the four parts applied to concrete filters: a
skip-everything filter drops the entry; the blank filter keeps it under
the empty key; the zero filter aborts with `AttributeError`; and with
no callable filter the entry is kept. -/
theorem claim_C10_skip_iff_identical_false_witness :
    flatten_object JsonLogster.mk0 (.dict [("k", .int 9)]) "."
      (some allFalseFilter) [] = .ok []
    ∧ flatten_object JsonLogster.mk0 (.dict [("k", .int 1)]) "."
      (some blankFilter) []
      = .ok [(String.intercalate "." ([] ++ [""]), .int 1)]
    ∧ flatten_object JsonLogster.mk0 (.dict [("k", .str "s")]) "."
      (some zeroFilter) [] = .error .attributeError
    ∧ flatten_object JsonLogster.mk0 (.dict [("x/y", .int 5)]) "_" Option.none []
      = .ok [(String.intercalate "_"
          ([] ++ [replaceSlash "x/y" JsonLogster.mk0.key_separator]), .int 5)] :=
  ⟨claim_C10_skip_iff_identical_false.1 JsonLogster.mk0 "." allFalseFilter []
      "k" (.int 9) rfl,
    claim_C10_skip_iff_identical_false.2.1 JsonLogster.mk0 "." blankFilter []
      "k" 1 rfl,
    claim_C10_skip_iff_identical_false.2.2.1 JsonLogster.mk0 "." zeroFilter []
      "k" (.str "s") rfl,
    claim_C10_skip_iff_identical_false.2.2.2 JsonLogster.mk0 "_" [] "x/y" 5⟩

end JsonLogsterModel
